import Mathlib

/-!
Verification of the NES emulator core of `rustness_monster`.

The development shallowly embeds the two core source files:

* `src/cpu.rs` — the 6502 interpreter: status flags, memory, stack,
  addressing modes and the `interpret` dispatch loop;
* `src/ppu/ppu.rs` — the picture-processing unit: address/scroll write
  latches, VRAM with nametable mirroring, palette table, buffered
  `PPUDATA` reads and the scanline tick engine.

Machine integers are embedded as `Nat` with explicit `% 256` / `% 65536`
at the points where the Rust code wraps (`wrapping_add`, `wrapping_sub`,
`u8`/`u16` casts).  Fallible operations (array indexing that can panic,
`unimplemented!`, `panic!`) are embedded as `Option`-returning functions,
`none` standing for the panic.

Components of the repository that are not part of the source snapshot
(the opcode table `src/opscode.rs`, the PPU register bitfield wrappers
`src/ppu/registers/*.rs`, `src/rom.rs`) are modelled from the
specification; each such definition carries a doc comment starting with
"Modelled from the spec:".
-/

/-! ## CPU: status flags (src/cpu.rs, `CpuFlags` bitflags) -/

/-- Status register `P`: one field per bit defined by the `CpuFlags`
bitflags in src/cpu.rs (`N V _ B D I Z C`; the unnamed bit 5 is not a
declared flag and is dropped by `from_bits_truncate`). -/
structure CpuFlags where
  carry : Bool
  zero : Bool
  interrupt_disable : Bool
  decimal_mode : Bool
  break_command : Bool
  overflow : Bool
  negativ : Bool
deriving Repr, DecidableEq

/-- Flags value `CpuFlags::from_bits_truncate(0b00100000)`: bit 5 is not a
declared flag, so every declared flag is clear. -/
def CpuFlags.new : CpuFlags :=
  { carry := false, zero := false, interrupt_disable := false,
    decimal_mode := false, break_command := false, overflow := false,
    negativ := false }

/-! ## CPU: memory (src/cpu.rs, `struct Memory { space: [u8; 0xffff] }`)

The backing array holds `0xFFFF = 65535` bytes, so the valid indices are
`0 ..= 0xFFFE`; an access at `0xFFFF` panics in Rust and is `none` here. -/

/-- Memory with its 65535-byte backing store `space`, embedded as a
function; reads and writes are guarded by the array bound `0xFFFF`. -/
structure Memory where
  space : Nat → Nat

/-- The `STACK` base constant of the `Mem` trait. -/
def Memory.STACK : Nat := 0x0100

/-- `Mem::read` for `Memory`: `self.space[pos as usize]`; panics (is
`none`) when `pos` is not below the array length `0xFFFF`. -/
def Memory.read (m : Memory) (pos : Nat) : Option Nat :=
  if pos < 0xFFFF then some (m.space pos) else none

/-- `Mem::write` for `Memory`: `self.space[pos as usize] = data`; panics
(is `none`) when `pos` is not below the array length `0xFFFF`. -/
def Memory.write (m : Memory) (pos data : Nat) : Option Memory :=
  if pos < 0xFFFF then
    some { space := fun i => if i = pos then data else m.space i }
  else none

/-- `Mem::read_u16` for `Memory`:
`LittleEndian::read_u16(&self.space[pos as usize..])`, which needs at
least two bytes in the slice and otherwise panics, hence the guard
`pos + 1 < 0xFFFF`. -/
def Memory.read_u16 (m : Memory) (pos : Nat) : Option Nat :=
  if pos + 1 < 0xFFFF then
    some (m.space pos + 256 * m.space (pos + 1))
  else none

/-- `Memory::new`: all bytes zero. -/
def Memory.new : Memory := { space := fun _ => 0 }

/-- `LittleEndian::read_u16(&mem[i..])` on a byte list: low byte at `i`,
high byte at `i + 1`; panics (is `none`) when fewer than two bytes
remain. -/
def listReadU16 (mem : List Nat) (i : Nat) : Option Nat :=
  match mem[i]?, mem[i + 1]? with
  | some lo, some hi => some (lo + 256 * hi)
  | _, _ => none

/-! ## CPU: addressing modes and the opcode table -/

/-- The `AddressingMode` enumeration of src/cpu.rs. -/
inductive AddressingMode where
  | Immediate
  | ZeroPage
  | ZeroPage_X
  | ZeroPage_Y
  | Absolute
  | Absolute_X
  | Absolute_Y
  | Indirect_X
  | Indirect_Y
  | None_Addressing
deriving Repr, DecidableEq

/-- One record of the opcode table: addressing mode and instruction
length in bytes. -/
structure OpsCode where
  mode : AddressingMode
  len : Nat
deriving Repr, DecidableEq

/-- Modelled from the spec: the static opcode table
`opscode::OPSCODES_MAP` (src/opscode.rs is not part of the snapshot).
Spec section 4.1 prescribes a table mapping each opcode to its addressing
mode and byte length, used for dispatch and for the `PC` advance
`PC <- PC + bytes - 1`; the lengths below are the standard 6502 ones and
agree with the program-counter assertions of the repository's own tests
(for example `a9` advances `PC` by 2 and `8d` by 3).  Only the opcodes
handled by `CPU::interpret` are present. -/
def opscodes : Nat → Option OpsCode := fun op =>
  match op with
  | 0x18 => some ⟨AddressingMode.None_Addressing, 1⟩
  | 0x38 => some ⟨AddressingMode.None_Addressing, 1⟩
  | 0x48 => some ⟨AddressingMode.None_Addressing, 1⟩
  | 0x68 => some ⟨AddressingMode.None_Addressing, 1⟩
  | 0x85 => some ⟨AddressingMode.ZeroPage, 2⟩
  | 0x95 => some ⟨AddressingMode.ZeroPage_X, 2⟩
  | 0x8d => some ⟨AddressingMode.Absolute, 3⟩
  | 0x9d => some ⟨AddressingMode.Absolute_X, 3⟩
  | 0x99 => some ⟨AddressingMode.Absolute_Y, 3⟩
  | 0x81 => some ⟨AddressingMode.Indirect_X, 2⟩
  | 0x91 => some ⟨AddressingMode.Indirect_Y, 2⟩
  | 0xa9 => some ⟨AddressingMode.Immediate, 2⟩
  | 0xa5 => some ⟨AddressingMode.ZeroPage, 2⟩
  | 0xb5 => some ⟨AddressingMode.ZeroPage_X, 2⟩
  | 0xad => some ⟨AddressingMode.Absolute, 3⟩
  | 0xbd => some ⟨AddressingMode.Absolute_X, 3⟩
  | 0xb9 => some ⟨AddressingMode.Absolute_Y, 3⟩
  | 0xa1 => some ⟨AddressingMode.Indirect_X, 2⟩
  | 0xb1 => some ⟨AddressingMode.Indirect_Y, 2⟩
  | _ => none

/-! ## CPU: registers and instructions (src/cpu.rs, `struct CPU`) -/

/-- The CPU state of src/cpu.rs. -/
structure CPU where
  register_a : Nat
  register_x : Nat
  register_y : Nat
  stack_pointer : Nat
  program_counter : Nat
  flags : CpuFlags
  memory : Memory

/-- `CPU::set_register_a`: stores `data` into `A`, sets `ZERO` iff the
result is zero, and updates `NEGATIV` by the source's condition
`self.register_a | 0b10000000 == 1` (kept verbatim; on 8-bit values
`a | 0x80` is at least `0x80`, so the condition is never true). -/
def CPU.set_register_a (cpu : CPU) (data : Nat) : CPU :=
  let cpu := { cpu with register_a := data }
  let cpu :=
    if cpu.register_a = 0 then
      { cpu with flags := { cpu.flags with zero := true } }
    else
      { cpu with flags := { cpu.flags with zero := false } }
  if cpu.register_a ||| 0b10000000 = 1 then
    { cpu with flags := { cpu.flags with negativ := true } }
  else
    { cpu with flags := { cpu.flags with negativ := false } }

/-- `CPU::set_carry_flag`. -/
def CPU.set_carry_flag (cpu : CPU) : CPU :=
  { cpu with flags := { cpu.flags with carry := true } }

/-- `CPU::clear_carry_flag`. -/
def CPU.clear_carry_flag (cpu : CPU) : CPU :=
  { cpu with flags := { cpu.flags with carry := false } }

/-- `CPU::stack_pop`: `SP <- SP.wrapping_add(1)`, then read the byte at
`STACK + SP`. -/
def CPU.stack_pop (cpu : CPU) : Option (CPU × Nat) :=
  let cpu := { cpu with stack_pointer := (cpu.stack_pointer + 1) % 256 }
  (cpu.memory.read (Memory.STACK + cpu.stack_pointer)).map fun d => (cpu, d)

/-- `CPU::stack_push`: write `data` at `STACK + SP`, then
`SP <- SP.wrapping_sub(1)` (embedded as `(SP + 255) % 256`). -/
def CPU.stack_push (cpu : CPU) (data : Nat) : Option CPU :=
  (cpu.memory.write (Memory.STACK + cpu.stack_pointer) data).map fun m =>
    { cpu with memory := m, stack_pointer := (cpu.stack_pointer + 255) % 256 }

/-- `AddressingMode::read_u8`: reads the operand byte `mem[PC]` and
resolves it according to the mode; 8-bit index additions wrap modulo 256
and 16-bit additions modulo 65536 (`u8`/`u16` arithmetic in the source).
`None_Addressing` panics in the source and is `none` here. -/
def AddressingMode.read_u8 (mode : AddressingMode) (mem : List Nat)
    (cpu : CPU) : Option Nat := do
  let pos ← mem[cpu.program_counter]?
  match mode with
  | AddressingMode.Immediate => some pos
  | AddressingMode.ZeroPage => cpu.memory.read pos
  | AddressingMode.ZeroPage_X => cpu.memory.read ((pos + cpu.register_x) % 256)
  | AddressingMode.ZeroPage_Y => cpu.memory.read ((pos + cpu.register_y) % 256)
  | AddressingMode.Absolute => do
      let mem_address ← listReadU16 mem pos
      cpu.memory.read mem_address
  | AddressingMode.Absolute_X => do
      let w ← listReadU16 mem pos
      cpu.memory.read ((w + cpu.register_x) % 65536)
  | AddressingMode.Absolute_Y => do
      let w ← listReadU16 mem pos
      cpu.memory.read ((w + cpu.register_y) % 65536)
  | AddressingMode.Indirect_X => do
      let deref ← cpu.memory.read_u16 ((pos + cpu.register_x) % 256)
      cpu.memory.read deref
  | AddressingMode.Indirect_Y => do
      let deref ← cpu.memory.read_u16 pos
      cpu.memory.read ((deref + cpu.register_y) % 65536)
  | AddressingMode.None_Addressing => none

/-- One pass of the body of `CPU::interpret` (everything except the tail
recursion): fetch the opcode at `PC`, increment `PC`, dispatch, then
advance `PC` by `len - 1` from the opcode table.  Out-of-range program
indexing and the `panic!("Unknown ops code")` arm are `none`. -/
def CPU.step (cpu0 : CPU) (program : List Nat) : Option CPU := do
  let begin_ := cpu0.program_counter
  let op ← program[begin_]?
  let cpu := { cpu0 with program_counter := cpu0.program_counter + 1 }
  let cpu ←
    match op with
    | 0x18 => some cpu.clear_carry_flag
    | 0x38 => some cpu.set_carry_flag
    | 0x48 => cpu.stack_push cpu.register_a
    | 0x68 => do
        let r ← cpu.stack_pop
        some (r.1.set_register_a r.2)
    | 0x85 => do
        let pos ← program[begin_ + 1]?
        let m ← cpu.memory.write pos cpu.register_a
        some { cpu with memory := m }
    | 0x95 => do
        let pos ← program[begin_ + 1]?
        let m ← cpu.memory.write ((pos + cpu.register_x) % 256) cpu.register_a
        some { cpu with memory := m }
    | 0x8d => do
        let pos ← listReadU16 program (begin_ + 1)
        let m ← cpu.memory.write pos cpu.register_a
        some { cpu with memory := m }
    | 0x9d => do
        let pos ← listReadU16 program (begin_ + 1)
        let m ← cpu.memory.write ((pos + cpu.register_x) % 65536) cpu.register_a
        some { cpu with memory := m }
    | 0x99 => do
        let pos ← listReadU16 program (begin_ + 1)
        let m ← cpu.memory.write ((pos + cpu.register_y) % 65536) cpu.register_a
        some { cpu with memory := m }
    | 0x81 => do
        let b ← program[begin_ + 1]?
        let deref ← cpu.memory.read_u16 ((b + cpu.register_x) % 256)
        let m ← cpu.memory.write deref cpu.register_a
        some { cpu with memory := m }
    | 0x91 => do
        let b ← program[begin_ + 1]?
        let deref ← cpu.memory.read_u16 b
        let m ← cpu.memory.write ((deref + cpu.register_y) % 65536) cpu.register_a
        some { cpu with memory := m }
    | 0xa9 | 0xa5 | 0xb5 | 0xad | 0xbd | 0xb9 | 0xa1 | 0xb1 => do
        let ops ← opscodes op
        let data ← ops.mode.read_u8 program cpu
        some (cpu.set_register_a data)
    | _ => none
  match opscodes op with
  | some ops => some { cpu with program_counter := cpu.program_counter + (ops.len - 1) }
  | none => some cpu

/-- Fuel-bounded unfolding of the tail recursion of `CPU::interpret`:
after each executed instruction, recurse while `PC < program.len()`.
Every successful `CPU.step` consumes the opcode byte and so increases
`PC` by at least one, hence `program.length + 1` units of fuel (supplied
by `CPU.interpret`) always suffice. -/
def CPU.interpretFuel : Nat → CPU → List Nat → Option CPU
  | 0, _, _ => none
  | fuel + 1, cpu, program => do
    let cpu ← cpu.step program
    if cpu.program_counter < program.length then
      CPU.interpretFuel fuel cpu program
    else
      some cpu

/-- `CPU::interpret`. -/
def CPU.interpret (cpu : CPU) (program : List Nat) : Option CPU :=
  CPU.interpretFuel (program.length + 1) cpu program

/-- `CPU::new`: zero registers, `SP = 0xFF`, `PC = 0`,
`P = from_bits_truncate(0b00100000)`, zeroed memory. -/
def CPU.new : CPU :=
  { register_a := 0, register_x := 0, register_y := 0,
    stack_pointer := 0xFF, program_counter := 0,
    flags := CpuFlags.new, memory := Memory.new }

/-! ## PPU: registers modelled from the spec

The bitfield wrapper types `ControlRegister`, `MaskRegister` and
`StatusRegister` live in `src/ppu/registers/*.rs`, and the `Mirroring`
enumeration in `src/rom.rs`; none of these files is part of the source
snapshot, so they are modelled from the specification. -/

/-- Modelled from the spec: the `Mirroring` enumeration of src/rom.rs
(spec section 3: `{Horizontal, Vertical, FourScreen}`). -/
inductive Mirroring where
  | HORIZONTAL
  | VERTICAL
  | FOUR_SCREEN
deriving Repr, DecidableEq

/-- Modelled from the spec: `ControlRegister` of
src/ppu/registers/control.rs, kept as its raw `PPUCTRL` byte. -/
structure ControlRegister where
  bits : Nat
deriving Repr, DecidableEq

/-- Modelled from the spec: `ControlRegister::vram_addr_increment`
returns 1 or 32 according to the VRAM-increment bit of `PPUCTRL`
(spec section 4.5); the repository's test `test_ppu_vram_reads_step_32`
selects the 32-step by writing `0b100` to `PPUCTRL`, fixing bit 2. -/
def ControlRegister.vram_addr_increment (c : ControlRegister) : Nat :=
  if c.bits &&& 0b100 ≠ 0 then 32 else 1

/-- Modelled from the spec: `ControlRegister::generate_vblank_nmi`, the
NMI-enable bit of `PPUCTRL` (spec section 4.5; bit 7 of the register). -/
def ControlRegister.generate_vblank_nmi (c : ControlRegister) : Bool :=
  c.bits &&& 0b10000000 ≠ 0

/-- `ControlRegister::new`: all bits clear. -/
def ControlRegister.new : ControlRegister := { bits := 0 }

/-- Modelled from the spec: `MaskRegister` of src/ppu/registers/mask.rs
(spec section 4.5); only the background/sprite rendering-enable bits are
used by the embedded code, the remaining `PPUMASK` bits are omitted. -/
structure MaskRegister where
  show_background : Bool
  show_sprites : Bool
deriving Repr, DecidableEq

/-- `MaskRegister::show_sprites` accessor (kept as a definition so that
call sites read as in the source). -/
def MaskRegister.show_sprites_bit (m : MaskRegister) : Bool :=
  m.show_sprites

/-- `MaskRegister::new`: all bits clear. -/
def MaskRegister.new : MaskRegister :=
  { show_background := false, show_sprites := false }

/-- Modelled from the spec: `StatusRegister` of
src/ppu/registers/status.rs; `PPUSTATUS` carries
`{vblank, sprite0_hit, sprite_overflow}` in its top three bits
(spec section 4.5). -/
structure StatusRegister where
  vblank : Bool
  sprite0_hit : Bool
  sprite_overflow : Bool
deriving Repr, DecidableEq

/-- Modelled from the spec: `StatusRegister::snapshot` packs the three
flags into the top three bits of the returned byte. -/
def StatusRegister.snapshot (s : StatusRegister) : Nat :=
  (if s.vblank then 0b10000000 else 0) +
  (if s.sprite0_hit then 0b01000000 else 0) +
  (if s.sprite_overflow then 0b00100000 else 0)

/-- Modelled from the spec: `StatusRegister::set_vblank_status`. -/
def StatusRegister.set_vblank_status (s : StatusRegister) (v : Bool) :
    StatusRegister :=
  { s with vblank := v }

/-- Modelled from the spec: `StatusRegister::reset_vblank_status`. -/
def StatusRegister.reset_vblank_status (s : StatusRegister) : StatusRegister :=
  { s with vblank := false }

/-- Modelled from the spec: `StatusRegister::set_sprite_zero_hit`. -/
def StatusRegister.set_sprite_zero_hit (s : StatusRegister) (v : Bool) :
    StatusRegister :=
  { s with sprite0_hit := v }

/-- Modelled from the spec: `StatusRegister::is_in_vblank`. -/
def StatusRegister.is_in_vblank (s : StatusRegister) : Bool :=
  s.vblank

/-- `StatusRegister::new`: all flags clear. -/
def StatusRegister.new : StatusRegister :=
  { vblank := false, sprite0_hit := false, sprite_overflow := false }

/-! ## PPU: address and scroll latches (src/ppu/ppu.rs) -/

/-- The `Addr` register of src/ppu/ppu.rs: `value.0` is the high byte
(`hi`), `value.1` the low byte (`lo`), plus the `hi_ptr` write latch. -/
structure Addr where
  hi : Nat
  lo : Nat
  hi_ptr : Bool

/-- `Addr::new`: value `(0, 0)`, latch pointing at the high byte. -/
def Addr.new : Addr := { hi := 0, lo := 0, hi_ptr := true }

/-- `Addr::set`: store a 16-bit value, high byte in `value.0`. -/
def Addr.set (a : Addr) (data : Nat) : Addr :=
  { a with hi := data >>> 8, lo := data &&& 0xff }

/-- `Addr::udpate` (sic): write one byte to the side selected by
`hi_ptr`, then flip the latch. -/
def Addr.udpate (a : Addr) (data : Nat) : Addr :=
  let a := if a.hi_ptr then { a with hi := data } else { a with lo := data }
  { a with hi_ptr := !a.hi_ptr }

/-- `Addr::increment`: `lo <- lo.wrapping_add(inc)`, carrying into `hi`
(with 8-bit wrap) when the low byte wrapped around. -/
def Addr.increment (a : Addr) (inc : Nat) : Addr :=
  let lo := a.lo
  let a := { a with lo := (a.lo + inc) % 256 }
  if lo > a.lo then { a with hi := (a.hi + 1) % 256 } else a

/-- `Addr::reset_latch`: point the latch back at the high byte. -/
def Addr.reset_latch (a : Addr) : Addr := { a with hi_ptr := true }

/-- `Addr::read`: the 16-bit value `(hi << 8) | lo`. -/
def Addr.read (a : Addr) : Nat := (a.hi <<< 8) ||| a.lo

/-- The `Scroll` register of src/ppu/ppu.rs with its own `latch`. -/
structure Scroll where
  scroll_x : Nat
  scroll_y : Nat
  latch : Bool

/-- `Scroll::new`. -/
def Scroll.new : Scroll := { scroll_x := 0, scroll_y := 0, latch := false }

/-- `Scroll::write`: X when the latch is clear, Y when set; then flip
the latch. -/
def Scroll.write (s : Scroll) (data : Nat) : Scroll :=
  let s := if !s.latch then { s with scroll_x := data } else { s with scroll_y := data }
  { s with latch := !s.latch }

/-- `Scroll::reset_latch`. -/
def Scroll.reset_latch (s : Scroll) : Scroll := { s with latch := false }

/-! ## PPU: the `NesPPU` state and its operations (src/ppu/ppu.rs)

The `frame` (a `RefCell<Frame>` handed to the external renderer) and
`sprite_zero_pixels` fields are omitted: rendering is an external
collaborator per spec section 1 and neither field is read by the
embedded operations.  The fixed-size arrays `vram` (2048), `oam_data`
(256) and `palette_table` (32) are embedded as functions with the
array bound enforced at each indexing site. -/

/-- The `NesPPU` state of src/ppu/ppu.rs. -/
structure NesPPU where
  chr_rom : List Nat
  mirroring : Mirroring
  ctrl : ControlRegister
  mask : MaskRegister
  status : StatusRegister
  oam_addr : Nat
  scroll : Scroll
  addr : Addr
  vram : Nat → Nat
  oam_data : Nat → Nat
  line : Nat
  cycles : Nat
  nmi_interrupt : Option Nat
  palette_table : Nat → Nat
  read_data_buf : Nat

/-- `NesPPU::new`. -/
def NesPPU.new (chr_rom : List Nat) (mirroring : Mirroring) : NesPPU :=
  { chr_rom := chr_rom, mirroring := mirroring,
    ctrl := ControlRegister.new, mask := MaskRegister.new,
    status := StatusRegister.new, oam_addr := 0,
    scroll := Scroll.new, addr := Addr.new,
    vram := fun _ => 0, oam_data := fun _ => 0,
    line := 0, cycles := 0, nmi_interrupt := none,
    palette_table := fun _ => 0, read_data_buf := 0 }

/-- `NesPPU::new_empty_rom`: 2 KiB of zeroed CHR, horizontal mirroring. -/
def NesPPU.new_empty_rom : NesPPU :=
  NesPPU.new (List.replicate 2048 0) Mirroring.HORIZONTAL

/-- `NesPPU::mirror_vram_addr`: mask the address down to
`0x2000–0x2FFF`, subtract the base, and fold the four nametables onto
the 2 KiB VRAM according to the mirroring mode.  (In the source the
subtraction is on `u16` and every caller passes `addr ≥ 0x2000`, so the
`Nat` truncated subtraction agrees with it there.) -/
def NesPPU.mirror_vram_addr (p : NesPPU) (addr : Nat) : Nat :=
  let mirrored_vram := addr &&& 0b10111111111111
  let vram_index := mirrored_vram - 0x2000
  let name_table := vram_index / 0x400
  match p.mirroring, name_table with
  | Mirroring.VERTICAL, 2 => vram_index - 0x800
  | Mirroring.VERTICAL, 3 => vram_index - 0x800
  | Mirroring.HORIZONTAL, 2 => vram_index - 0x400
  | Mirroring.HORIZONTAL, 1 => vram_index - 0x400
  | Mirroring.HORIZONTAL, 3 => vram_index - 0x800
  | _, _ => vram_index

/-- `NesPPU::increment_vram_addr`: advance the VRAM pointer by the
`PPUCTRL` step, then mirror the result down below `0x4000`. -/
def NesPPU.increment_vram_addr (p : NesPPU) : NesPPU :=
  let p := { p with addr := p.addr.increment p.ctrl.vram_addr_increment }
  if p.addr.read > 0x3fff then
    { p with addr := p.addr.set (p.addr.read &&& 0b11111111111111) }
  else p

/-- `NesPPU::has_sprite_hit`: the source condition
`(y + 5 == self.line) && x <= cycle && self.mask.show_sprites()` with
`y = oam_data[0]` and `x = oam_data[3]`. -/
def NesPPU.has_sprite_hit (p : NesPPU) (cycle : Nat) : Bool :=
  let y := p.oam_data 0
  let x := p.oam_data 3
  (y + 5 == p.line) && (decide (x ≤ cycle)) && p.mask.show_sprites

/-- `NesPPU::read_status` (trait `PPU`): snapshot the status byte, clear
VBlank, reset both the `addr` and the `scroll` latches; returns the new
state together with the byte. -/
def NesPPU.read_status (p : NesPPU) : NesPPU × Nat :=
  let data := p.status.snapshot
  ({ p with status := p.status.reset_vblank_status,
            addr := p.addr.reset_latch,
            scroll := p.scroll.reset_latch }, data)

/-- `NesPPU::write_to_scroll` (trait `PPU`). -/
def NesPPU.write_to_scroll (p : NesPPU) (value : Nat) : NesPPU :=
  { p with scroll := p.scroll.write value }

/-- `NesPPU::write_to_ppu_addr` (trait `PPU`): feed one byte through the
`hi_ptr` latch, then mirror the address down below `0x4000`. -/
def NesPPU.write_to_ppu_addr (p : NesPPU) (value : Nat) : NesPPU :=
  let p := { p with addr := p.addr.udpate value }
  if p.addr.read > 0x3fff then
    { p with addr := p.addr.set (p.addr.read &&& 0b11111111111111) }
  else p

/-- `NesPPU::write_to_ctrl` (trait `PPU`): update `PPUCTRL`; raising the
NMI-enable bit while VBlank is set latches an NMI.  (The register update
itself is modelled from the spec as storing the raw byte, since
`ControlRegister::update` is not in the snapshot.) -/
def NesPPU.write_to_ctrl (p : NesPPU) (value : Nat) : NesPPU :=
  let before_nmi_status := p.ctrl.generate_vblank_nmi
  let p := { p with ctrl := { bits := value } }
  if !before_nmi_status && p.ctrl.generate_vblank_nmi && p.status.is_in_vblank then
    { p with nmi_interrupt := some 1 }
  else p

/-- `NesPPU::write_to_data` (trait `PPU`): write the byte at the current
VRAM address (CHR writes are ignored with a logged warning; addresses
`0x3000–0x3EFF` hit `unimplemented!` and panic, i.e. `none`; palette
addresses `0x3F10/14/18/1C` are stored at their `0x3F00/04/08/0C`
mirror), then post-increment the VRAM address. -/
def NesPPU.write_to_data (p : NesPPU) (value : Nat) : Option NesPPU := do
  let addr := p.addr.read
  let p ←
    if addr ≤ 0x1fff then
      some p
    else if addr ≤ 0x2fff then
      let idx := p.mirror_vram_addr addr
      if idx < 2048 then
        some { p with vram := fun i => if i = idx then value else p.vram i }
      else none
    else if addr ≤ 0x3eff then
      none
    else if addr = 0x3f10 ∨ addr = 0x3f14 ∨ addr = 0x3f18 ∨ addr = 0x3f1c then
      let add_mirror := addr - 0x10
      let idx := add_mirror - 0x3f00
      if idx < 32 then
        some { p with palette_table := fun i => if i = idx then value else p.palette_table i }
      else none
    else if 0x3f00 ≤ addr ∧ addr ≤ 0x3fff then
      let idx := addr - 0x3f00
      if idx < 32 then
        some { p with palette_table := fun i => if i = idx then value else p.palette_table i }
      else none
    else none
  some p.increment_vram_addr

/-- `NesPPU::read_data` (trait `PPU`): post-increment the VRAM address,
then serve the read at the pre-increment address: CHR and nametable
reads return the buffered byte and reload the buffer; addresses
`0x3000–0x3EFF` hit `unimplemented!` and panic, i.e. `none`; palette
reads return the palette byte immediately (the buffer is not touched),
with `0x3F10/14/18/1C` redirected to their `0x3F00/04/08/0C` mirror. -/
def NesPPU.read_data (p : NesPPU) : Option (NesPPU × Nat) :=
  let addr := p.addr.read
  let p := p.increment_vram_addr
  if addr ≤ 0x1fff then
    match p.chr_rom[addr]? with
    | some v => some ({ p with read_data_buf := v }, p.read_data_buf)
    | none => none
  else if addr ≤ 0x2fff then
    let idx := p.mirror_vram_addr addr
    if idx < 2048 then
      some ({ p with read_data_buf := p.vram idx }, p.read_data_buf)
    else none
  else if addr ≤ 0x3eff then
    none
  else if addr = 0x3f10 ∨ addr = 0x3f14 ∨ addr = 0x3f18 ∨ addr = 0x3f1c then
    let add_mirror := addr - 0x10
    let idx := add_mirror - 0x3f00
    if idx < 32 then some (p, p.palette_table idx) else none
  else if 0x3f00 ≤ addr ∧ addr ≤ 0x3fff then
    let idx := addr - 0x3f00
    if idx < 32 then some (p, p.palette_table idx) else none
  else none

/-- `NesPPU::tick` (trait `PPU`): accumulate `cycles` dots; on crossing
341 dots, check the sprite-0 condition, advance the scanline, enter
VBlank (and latch an NMI when enabled) on reaching line 241, and wrap
the frame at line 262 returning `true`.  The calls into the external
renderer (`render_bg_scanline`, `render_sprites`) only touch the omitted
`frame` field. -/
def NesPPU.tick (p : NesPPU) (cycles : Nat) : NesPPU × Bool :=
  let p : NesPPU := { p with cycles := p.cycles + cycles }
  if p.cycles ≥ 341 then
    let p : NesPPU :=
      if p.has_sprite_hit p.cycles then
        { p with status := p.status.set_sprite_zero_hit true }
      else p
    let p : NesPPU := { p with cycles := p.cycles - 341, line := p.line + 1 }
    let p : NesPPU :=
      if p.line = 241 then
        let p : NesPPU := { p with status := (p.status.set_vblank_status true).set_sprite_zero_hit false }
        if p.ctrl.generate_vblank_nmi then { p with nmi_interrupt := some 1 } else p
      else p
    if p.line ≥ 262 then
      ({ p with line := 0, nmi_interrupt := none,
                status := (p.status.set_sprite_zero_hit false).reset_vblank_status }, true)
    else (p, false)
  else (p, false)

/-- `NesPPU::poll_nmi_interrupt` (trait `PPU`): `Option::take`. -/
def NesPPU.poll_nmi_interrupt (p : NesPPU) : Option Nat × NesPPU :=
  (p.nmi_interrupt, { p with nmi_interrupt := none })

/-! ## Concrete states used by the theorems below -/

/-- A CPU whose stack pointer sits at the bottom of the stack page. -/
def cpuSp0 : CPU := { CPU.new with stack_pointer := 0 }

/-- A CPU holding `0x80` (bit 7 set) in the accumulator. -/
def cpuA80 : CPU := { CPU.new with register_a := 0x80 }

/-- A PPU whose VRAM pointer sits at `0x3001` (inside `$3000–$3EFF`). -/
def ppu3001 : NesPPU :=
  { NesPPU.new_empty_rom with addr := { hi := 0x30, lo := 0x01, hi_ptr := true } }

/-- A PPU whose VRAM pointer sits at `0x3000`. -/
def ppu3000 : NesPPU :=
  { NesPPU.new_empty_rom with addr := { hi := 0x30, lo := 0x00, hi_ptr := true } }

/-- A PPU about to read `PPUDATA` at palette address `0x3F00`, with a
stale buffer byte `0xAA` and the nametable byte underneath the palette
address (VRAM cell `0x700`, the horizontal mirror of `0x2F00`) set to
`0x55`. -/
def ppuPal : NesPPU :=
  { NesPPU.new_empty_rom with
    addr := { hi := 0x3f, lo := 0x00, hi_ptr := true },
    read_data_buf := 0xAA,
    vram := fun i => if i = 0x700 then 0x55 else 0 }

/-- A PPU whose VRAM pointer sits at palette address `0x3F00`. -/
def ppuPalW : NesPPU :=
  { NesPPU.new_empty_rom with
    addr := { hi := 0x3f, lo := 0x00, hi_ptr := true },
    palette_table := fun i => if i = 0 then 0x21 else 0 }

/-- A PPU whose VRAM pointer sits at mirror palette address `0x3F10`. -/
def ppu3f10 : NesPPU :=
  { NesPPU.new_empty_rom with
    addr := { hi := 0x3f, lo := 0x10, hi_ptr := true },
    palette_table := fun i => if i = 0 then 0x21 else 0 }

/-- A PPU whose VRAM pointer sits at palette address `0x3F20`, the first
address the palette-mirroring claim folds onto `0x3F00`. -/
def ppu3f20 : NesPPU :=
  { NesPPU.new_empty_rom with
    addr := { hi := 0x3f, lo := 0x20, hi_ptr := true } }

/-- A PPU on visible scanline 15 with sprite 0 at `Y = 10`, `X = 0`,
sprite rendering enabled and background rendering disabled. -/
def ppuSprite : NesPPU :=
  { NesPPU.new_empty_rom with
    oam_data := fun i => if i = 0 then 10 else 0,
    mask := { show_background := false, show_sprites := true },
    line := 15 }

/-- A PPU at the end of scanline 240 with the NMI-enable bit of
`PPUCTRL` set. -/
def ppuVbl : NesPPU :=
  { NesPPU.new_empty_rom with
    line := 240,
    ctrl := { bits := 0b10000000 } }

/-! ## Helper lemmas -/

/-- With an 8-bit low byte, `Addr::read` is plain positional arithmetic. -/
lemma Addr.read_arith (a : Addr) (hlo : a.lo < 256) :
    a.read = a.hi * 256 + a.lo := by
  unfold Addr.read
  rw [Nat.shiftLeft_eq]
  have h := Nat.mul_add_lt_is_or (b := a.lo) (i := 8) (by norm_num; omega) a.hi
  rw [Nat.mul_comm] at h
  norm_num at h ⊢
  omega

/-- `Addr::set` followed by `Addr::read` returns the stored value. -/
lemma Addr.set_read (a : Addr) (d : Nat) : (a.set d).read = d := by
  have h1 : d &&& 0xff = d % 256 := by
    have h := Nat.and_pow_two_sub_one_eq_mod d 8
    norm_num at h
    exact h
  have h2 : d >>> 8 = d / 256 := by
    rw [Nat.shiftRight_eq_div_pow]
  have hlo : (a.set d).lo < 256 := by
    unfold Addr.set
    simp only [h1]
    omega
  rw [Addr.read_arith _ hlo]
  unfold Addr.set
  simp only [h1, h2]
  omega

/-- Masking with `0b11111111111111` is reduction modulo `0x4000`. -/
lemma and_3fff_eq_mod (n : Nat) : n &&& 0b11111111111111 = n % 0x4000 := by
  have h := Nat.and_pow_two_sub_one_eq_mod n 14
  norm_num at h ⊢
  exact h

/-- The `PPUCTRL` VRAM step is 1 or 32. -/
lemma ControlRegister.vram_addr_increment_cases (c : ControlRegister) :
    c.vram_addr_increment = 1 ∨ c.vram_addr_increment = 32 := by
  unfold ControlRegister.vram_addr_increment
  split
  · exact Or.inr rfl
  · exact Or.inl rfl

/-- `Addr::increment` adds its step to the 16-bit value as long as the
value stays in range (the callers keep it below `0x4000`). -/
lemma Addr.increment_read (a : Addr) (inc : Nat) (hlo : a.lo < 256)
    (hhi : a.hi ≤ 63) (hinc1 : 1 ≤ inc) (hinc2 : inc ≤ 32) :
    (a.increment inc).read = a.read + inc ∧ (a.increment inc).lo < 256 ∧
      (a.increment inc).hi_ptr = a.hi_ptr := by
  have ha := Addr.read_arith a hlo
  by_cases hc : a.lo > (a.lo + inc) % 256
  · have he : a.increment inc =
        { hi := (a.hi + 1) % 256, lo := (a.lo + inc) % 256, hi_ptr := a.hi_ptr } := by
      simp [Addr.increment, hc]
    rw [he]
    rw [Addr.read_arith _ (by simp; omega)]
    refine ⟨by simp; omega, by simp; omega, rfl⟩
  · have he : a.increment inc =
        { hi := a.hi, lo := (a.lo + inc) % 256, hi_ptr := a.hi_ptr } := by
      simp [Addr.increment, hc]
    rw [he]
    rw [Addr.read_arith _ (by simp; omega)]
    refine ⟨by simp; omega, by simp; omega, rfl⟩

/-- `NesPPU::increment_vram_addr` touches only the `addr` register: all
other fields survive unchanged. -/
lemma NesPPU.increment_vram_addr_fields (p : NesPPU) :
    (p.increment_vram_addr).chr_rom = p.chr_rom ∧
    (p.increment_vram_addr).mirroring = p.mirroring ∧
    (p.increment_vram_addr).ctrl = p.ctrl ∧
    (p.increment_vram_addr).vram = p.vram ∧
    (p.increment_vram_addr).palette_table = p.palette_table ∧
    (p.increment_vram_addr).read_data_buf = p.read_data_buf := by
  simp only [NesPPU.increment_vram_addr]
  split
  · exact ⟨rfl, rfl, rfl, rfl, rfl, rfl⟩
  · exact ⟨rfl, rfl, rfl, rfl, rfl, rfl⟩

/-- `NesPPU::mirror_vram_addr` depends only on the mirroring mode, so it
is unchanged by `NesPPU::increment_vram_addr`. -/
lemma NesPPU.increment_vram_addr_mirror (p : NesPPU) (a : Nat) :
    (p.increment_vram_addr).mirror_vram_addr a = p.mirror_vram_addr a := by
  unfold NesPPU.mirror_vram_addr
  rw [(p.increment_vram_addr_fields).2.1]

/-- The `addr` result of `NesPPU::increment_vram_addr` depends only on
the `addr` and `ctrl` fields of the input state. -/
lemma NesPPU.increment_vram_addr_addr_congr (p q : NesPPU)
    (ha : p.addr = q.addr) (hc : p.ctrl = q.ctrl) :
    (p.increment_vram_addr).addr = (q.increment_vram_addr).addr := by
  simp only [NesPPU.increment_vram_addr, ha, hc, apply_ite (NesPPU.addr)]

/-- `NesPPU::increment_vram_addr` advances the 14-bit VRAM pointer by
the `PPUCTRL` step, modulo `0x4000`. -/
lemma NesPPU.increment_vram_addr_read (p : NesPPU) (hlo : p.addr.lo < 256)
    (h : p.addr.read ≤ 0x3fff) :
    (p.increment_vram_addr).addr.read =
      (p.addr.read + p.ctrl.vram_addr_increment) % 0x4000 := by
  have hread := Addr.read_arith p.addr hlo
  have hhi : p.addr.hi ≤ 63 := by omega
  have hinc := ControlRegister.vram_addr_increment_cases p.ctrl
  have hstep := Addr.increment_read p.addr p.ctrl.vram_addr_increment hlo hhi
    (by omega) (by omega)
  simp only [NesPPU.increment_vram_addr]
  by_cases hbig : (p.addr.increment p.ctrl.vram_addr_increment).read > 0x3fff
  · rw [if_pos (by simpa using hbig)]
    simp only [Addr.set_read, and_3fff_eq_mod]
    rw [hstep.1]
  · rw [if_neg (by simpa using hbig)]
    simp only
    rw [hstep.1, Nat.mod_eq_of_lt (by omega)]

/-- On 8-bit values `a ||| 0x80` has bit 7 set, so it is never 1: the
`NEGATIV` branch of `CPU::set_register_a` is unreachable. -/
lemma lor_128_ne_one (d : Nat) : ¬(d ||| 128 = 1) := by
  intro h
  have h7 : (d ||| 128).testBit 7 = true := by
    rw [Nat.testBit_lor]
    simp [Nat.testBit]
  rw [h] at h7
  simp [Nat.testBit] at h7

/-! ## Claim theorems -/

/-- C1: every value a load (or `PLA`) places in the accumulator goes
through `CPU::set_register_a`, which sets `Z ↔ (v = 0)` and leaves `C`
and `V` untouched — but its negative-flag condition
`register_a | 0b10000000 == 1` is unsatisfiable, so `N` is always
cleared, never set from bit 7.  On the spec's own scenario
`A9 FF 48 A9 00 68` the code yields `A = 0xFF`, `Z = 0`, `C`/`V`
unchanged and `SP` restored, but `N = 0` where the claim requires
`N = 1`. -/
theorem lda_load_flags_negativ_never_set :
    (∀ (cpu : CPU) (data : Nat),
      (cpu.set_register_a data).register_a = data ∧
      ((cpu.set_register_a data).flags.zero = true ↔ data = 0) ∧
      (cpu.set_register_a data).flags.negativ = false ∧
      (cpu.set_register_a data).flags.carry = cpu.flags.carry ∧
      (cpu.set_register_a data).flags.overflow = cpu.flags.overflow) ∧
    ((CPU.new.interpret [0xa9, 0xff, 0x48, 0xa9, 0x00, 0x68]).map fun c =>
      ((c.register_a : Nat), c.flags.zero, c.flags.negativ, c.flags.carry,
       c.flags.overflow, c.stack_pointer)) =
    some (0xff, false, false, false, false, 0xff) := by
  refine ⟨fun cpu data => ?_, rfl⟩
  have hne := lor_128_ne_one data
  unfold CPU.set_register_a
  by_cases h0 : data = 0
  · subst h0
    simp
  · simp [h0, hne]

/-- C2: `CPU::stack_push` writes its byte at `0x0100 + SP` and then
decrements `SP` modulo 256; `CPU::stack_pop` increments `SP` modulo 256
and then reads from `0x0100 + SP`; and executing `PHA` (`0x48`) from
`SP = 0` leaves `SP = 0xFF` with the pushed byte at `0x0100`. -/
theorem stack_push_pop_discipline (cpu : CPU) (data : Nat)
    (h : cpu.stack_pointer < 256) :
    (∃ cpu', cpu.stack_push data = some cpu' ∧
       cpu'.memory.space (0x0100 + cpu.stack_pointer) = data ∧
       cpu'.stack_pointer = (cpu.stack_pointer + 255) % 256) ∧
    (∃ r, cpu.stack_pop = some r ∧
       r.1.stack_pointer = (cpu.stack_pointer + 1) % 256 ∧
       r.2 = cpu.memory.space (0x0100 + (cpu.stack_pointer + 1) % 256)) ∧
    (cpu.stack_pointer = 0 → cpu.program_counter = 0 →
       ∃ c', cpu.interpret [0x48] = some c' ∧ c'.stack_pointer = 0xFF ∧
         c'.memory.space 0x0100 = cpu.register_a) := by
  refine ⟨?_, ?_, ?_⟩
  · unfold CPU.stack_push Memory.write Memory.STACK
    rw [if_pos (by omega : (0x0100 : Nat) + cpu.stack_pointer < 0xFFFF)]
    refine ⟨_, rfl, ?_, rfl⟩
    simp
  · simp only [CPU.stack_pop, Memory.read, Memory.STACK]
    have hlt : (cpu.stack_pointer + 1) % 256 < 256 := Nat.mod_lt _ (by norm_num)
    rw [if_pos (by omega : (0x0100 : Nat) + (cpu.stack_pointer + 1) % 256 < 0xFFFF)]
    exact ⟨_, rfl, rfl, rfl⟩
  · intro h0 hpc
    obtain ⟨a, x, y, sp, pc, fl, mem⟩ := cpu
    simp only at h0 hpc
    subst h0; subst hpc
    exact ⟨_, rfl, rfl, rfl⟩

/-- C2 witness: the stack-wrap scenario at `SP = 0` with `PHA`. -/
theorem stack_push_pop_discipline_witness :
    cpuSp0.stack_pointer < 256 ∧
    (∃ c', cpuSp0.interpret [0x48] = some c' ∧ c'.stack_pointer = 0xFF ∧
      c'.memory.space 0x0100 = cpuSp0.register_a) :=
  ⟨by norm_num [cpuSp0, CPU.new],
   (stack_push_pop_discipline cpuSp0 0x42 (by norm_num [cpuSp0, CPU.new])).2.2 rfl rfl⟩

/-- C3: `PHA; PLA` from `A = 0x80` restores `A` and `SP` and sets
`Z = 0`, but the resulting `N` is 0 although bit 7 of `0x80` is 1: the
round-trip restores the value while `CPU::set_register_a` (see C1) never
sets the negative flag. -/
theorem pha_pla_roundtrip_negativ_divergence :
    ((cpuA80.interpret [0x48, 0x68]).map fun c =>
      ((c.register_a : Nat), c.stack_pointer, c.flags.zero, c.flags.negativ)) =
    some (0x80, 0xFF, false, false) := by rfl

/-- C10: `Memory::read` and `Memory::write` succeed exactly on
`0x0000–0xFFFE` (the backing array holds `0xFFFF` bytes), and
`Memory::read_u16` needs two in-bounds bytes, so it fails from `0xFFFE`
upwards. -/
theorem memory_index_bounds (m : Memory) (pos data : Nat) :
    ((m.read pos).isSome = true ↔ pos ≤ 0xFFFE) ∧
    ((m.write pos data).isSome = true ↔ pos ≤ 0xFFFE) ∧
    ((m.read_u16 pos).isSome = true ↔ pos ≤ 0xFFFD) ∧
    (0xFFFE ≤ pos → m.read_u16 pos = none) := by
  unfold Memory.read Memory.write Memory.read_u16
  refine ⟨?_, ?_, ?_, ?_⟩
  · split <;> simp <;> omega
  · split <;> simp <;> omega
  · split <;> simp <;> omega
  · intro hp
    rw [if_neg (by omega)]

/-- C10 witness: the last in-bounds byte address `0xFFFE` is readable,
while a 16-bit read there runs off the end. -/
theorem memory_index_bounds_witness :
    (Memory.new.read 0xFFFE).isSome = true ∧ Memory.new.read_u16 0xFFFE = none :=
  ⟨(memory_index_bounds Memory.new 0xFFFE 0).1.mpr (by norm_num),
   (memory_index_bounds Memory.new 0xFFFE 0).2.2.2 (by norm_num)⟩

/-- C4 counterexample: from the reset state, a `PPUSCROLL` write flips
the scroll latch but leaves the `PPUADDR` latch untouched, so the next
`PPUADDR` write still targets the high byte (`hi` becomes `0x23`) — with
a single shared toggle it would have targeted the low byte. -/
theorem scroll_write_does_not_move_addr_latch :
    NesPPU.new_empty_rom.scroll.latch = false ∧
    NesPPU.new_empty_rom.addr.hi_ptr = true ∧
    (NesPPU.new_empty_rom.write_to_scroll 0x05).scroll.latch = true ∧
    (NesPPU.new_empty_rom.write_to_scroll 0x05).addr.hi_ptr = true ∧
    ((NesPPU.new_empty_rom.write_to_scroll 0x05).write_to_ppu_addr 0x23).addr.hi
      = 0x23 :=
  ⟨rfl, rfl, rfl, rfl, rfl⟩

/-- C4 (amended): the `PPUADDR` and `PPUSCROLL` write latches are two
independent toggles — writing one register flips only its own latch —
and a `PPUSTATUS` read resets both, so the next `PPUADDR` write targets
the high byte. -/
theorem addr_scroll_latches_independent (p : NesPPU) (v w : Nat) :
    (p.write_to_scroll v).addr.hi_ptr = p.addr.hi_ptr ∧
    (p.write_to_scroll v).scroll.latch = !p.scroll.latch ∧
    (p.write_to_ppu_addr w).scroll.latch = p.scroll.latch ∧
    (p.write_to_ppu_addr w).addr.hi_ptr = !p.addr.hi_ptr ∧
    (p.read_status).1.addr.hi_ptr = true ∧
    (p.read_status).1.scroll.latch = false := by
  refine ⟨rfl, ?_, ?_, ?_, rfl, rfl⟩
  · simp only [NesPPU.write_to_scroll, Scroll.write]
    split <;> rfl
  · simp only [NesPPU.write_to_ppu_addr]
    split <;> rfl
  · simp only [NesPPU.write_to_ppu_addr, Addr.udpate]
    split
    · split <;> rfl
    · split <;> rfl

/-- C7: a `PPUDATA` access at VRAM address `0x3000` is not recovered:
both the read and the write paths hit the `unimplemented!` arm and
panic (`none`), instead of mirroring down to `0x2000`. -/
theorem vram_3000_access_panics :
    ppu3000.addr.read = 0x3000 ∧
    ppu3000.read_data = none ∧
    ppu3000.write_to_data 0x01 = none :=
  ⟨rfl, rfl, rfl⟩

/-- C8: the tick engine sets `sprite0_hit` while background rendering is
disabled: with sprite 0 at `Y = 10`, `X = 0`, sprites enabled,
background disabled and `line = 15`, crossing a scanline boundary sets
the flag — `NesPPU::has_sprite_hit` tests only
`y + 5 == line && x <= cycle && show_sprites`, never the background
enable, the bounding box, or a prior hit. -/
theorem sprite_hit_set_with_background_disabled :
    ppuSprite.mask.show_background = false ∧
    ppuSprite.line = 15 ∧
    (ppuSprite.tick 341).1.status.sprite0_hit = true :=
  ⟨rfl, rfl, rfl⟩

/-- C9: whenever a tick crosses a scanline boundary out of line 240
(so the counter advances into line 241), the VBlank flag is set, and if
the `PPUCTRL` NMI-enable bit is set at that moment an NMI is latched,
visible to `poll_nmi_interrupt`. -/
theorem tick_into_241_sets_vblank_and_nmi (p : NesPPU) (cycles : Nat)
    (hline : p.line = 240) (hc : 341 ≤ p.cycles + cycles) :
    (p.tick cycles).1.status.vblank = true ∧
    (p.tick cycles).1.line = 241 ∧
    (p.ctrl.generate_vblank_nmi = true →
      (p.tick cycles).1.nmi_interrupt = some 1) ∧
    (p.ctrl.generate_vblank_nmi = true →
      ((p.tick cycles).1.poll_nmi_interrupt).1 = some 1) := by
  obtain ⟨chr, mir, ctrl, mask, status, oam, scr, ad, vr, od, line, cyc, nmi, pal, buf⟩ := p
  simp only at hline hc
  subst hline
  simp only [NesPPU.tick, NesPPU.poll_nmi_interrupt]
  rw [if_pos (by omega : cyc + cycles ≥ 341)]
  split
  · by_cases hn : ctrl.generate_vblank_nmi = true
    · simp [hn, StatusRegister.set_vblank_status, StatusRegister.set_sprite_zero_hit]
    · simp [hn, StatusRegister.set_vblank_status, StatusRegister.set_sprite_zero_hit]
  · by_cases hn : ctrl.generate_vblank_nmi = true
    · simp [hn, StatusRegister.set_vblank_status, StatusRegister.set_sprite_zero_hit]
    · simp [hn, StatusRegister.set_vblank_status, StatusRegister.set_sprite_zero_hit]

/-- C9 witness: a PPU at the end of line 240 with NMI enabled, ticked
across the scanline boundary. -/
theorem tick_into_241_witness :
    ppuVbl.line = 240 ∧ 341 ≤ ppuVbl.cycles + 341 ∧
    (ppuVbl.tick 341).1.status.vblank = true ∧
    (ppuVbl.tick 341).1.nmi_interrupt = some 1 := by
  refine ⟨rfl, by norm_num, ?_, ?_⟩
  · exact (tick_into_241_sets_vblank_and_nmi ppuVbl 341 rfl (by norm_num)).1
  · exact (tick_into_241_sets_vblank_and_nmi ppuVbl 341 rfl (by norm_num)).2.2.1 rfl

/-- C5 counterexample: (i) a `PPUDATA` read at `0x3001` — inside the
claim's buffered range `$0000–$3EFF` — panics (`none`) instead of
returning the buffered byte; (ii) a palette read at `0x3F00` returns the
palette byte immediately but leaves the stale buffer `0xAA` in place
instead of loading the underlying nametable byte `0x55`. -/
theorem read_data_claim_divergences :
    (ppu3001.addr.read = 0x3001 ∧ ppu3001.read_data = none) ∧
    (ppuPal.addr.read = 0x3f00 ∧
     ppuPal.vram (ppuPal.mirror_vram_addr 0x3f00) = 0x55 ∧
     ((ppuPal.read_data).map fun pr => (pr.2, pr.1.read_data_buf)) =
       some (0x00, 0xAA)) :=
  ⟨⟨rfl, rfl⟩, rfl, rfl, rfl⟩

/-- C5 (amended): every completed `PPUDATA` access post-increments the
VRAM address by the `PPUCTRL` step of 1 or 32 (modulo the `0x4000`
mirror); reads at `$0000–$2FFF` return the previously buffered byte and
reload the buffer from the current address; reads at `$3000–$3EFF`
panic (`unimplemented!`); palette reads at `$3F00–$3F1F` return the
palette byte immediately and leave the buffer unchanged. -/
theorem read_data_buffered_and_increment (p : NesPPU) (hlo : p.addr.lo < 256) :
    (p.ctrl.vram_addr_increment = 1 ∨ p.ctrl.vram_addr_increment = 32) ∧
    (p.addr.read ≤ 0x3fff →
      (p.increment_vram_addr).addr.read =
        (p.addr.read + p.ctrl.vram_addr_increment) % 0x4000) ∧
    (∀ v, p.addr.read ≤ 0x1fff → p.chr_rom[p.addr.read]? = some v →
      p.read_data = some ({ p.increment_vram_addr with read_data_buf := v },
        p.read_data_buf)) ∧
    (0x2000 ≤ p.addr.read → p.addr.read ≤ 0x2fff →
      p.mirror_vram_addr p.addr.read < 2048 →
      p.read_data = some ({ p.increment_vram_addr with
          read_data_buf := p.vram (p.mirror_vram_addr p.addr.read) },
        p.read_data_buf)) ∧
    (0x3000 ≤ p.addr.read → p.addr.read ≤ 0x3eff → p.read_data = none) ∧
    (0x3f00 ≤ p.addr.read → p.addr.read ≤ 0x3f1f →
      ¬(p.addr.read = 0x3f10 ∨ p.addr.read = 0x3f14 ∨ p.addr.read = 0x3f18 ∨
        p.addr.read = 0x3f1c) →
      p.read_data = some (p.increment_vram_addr,
        p.palette_table (p.addr.read - 0x3f00))) ∧
    (∀ v p', p.write_to_data v = some p' →
      p'.addr = (p.increment_vram_addr).addr) := by
  obtain hfields := p.increment_vram_addr_fields
  refine ⟨ControlRegister.vram_addr_increment_cases p.ctrl,
    fun hr => p.increment_vram_addr_read hlo hr, ?_, ?_, ?_, ?_, ?_⟩
  · intro v h1 hv
    simp only [NesPPU.read_data]
    rw [if_pos h1, hfields.1, hv]
    rw [hfields.2.2.2.2.2]
  · intro h2a h2b hm
    simp only [NesPPU.read_data]
    rw [if_neg (by omega), if_pos (by omega : p.addr.read ≤ 0x2fff),
      NesPPU.increment_vram_addr_mirror, if_pos hm, hfields.2.2.2.1,
      hfields.2.2.2.2.2]
  · intro h3a h3b
    simp only [NesPPU.read_data]
    rw [if_neg (by omega), if_neg (by omega), if_pos (by omega)]
  · intro h5a h5b hnm
    simp only [NesPPU.read_data]
    rw [if_neg (by omega), if_neg (by omega), if_neg (by omega), if_neg hnm,
      if_pos (by omega : 0x3f00 ≤ p.addr.read ∧ p.addr.read ≤ 0x3fff),
      if_pos (by omega : p.addr.read - 0x3f00 < 32)]
    rw [hfields.2.2.2.2.1]
  · intro v p' hw
    simp only [NesPPU.write_to_data] at hw
    repeat' split at hw
    all_goals first
      | (injection hw with hw
         subst hw
         exact NesPPU.increment_vram_addr_addr_congr _ _ rfl rfl)
      | injection hw

/-- C5 witness: the palette state `ppuPalW` at `0x3F00` satisfies the
hypotheses, and its post-increment address is `0x3F01` = (`0x3F00` + the
step 1) modulo `0x4000`. -/
theorem read_data_buffered_and_increment_witness :
    ppuPalW.addr.lo < 256 ∧ ppuPalW.addr.read ≤ 0x3fff ∧
    (ppuPalW.increment_vram_addr).addr.read =
      (ppuPalW.addr.read + ppuPalW.ctrl.vram_addr_increment) % 0x4000 :=
  ⟨by norm_num [ppuPalW, NesPPU.new_empty_rom, NesPPU.new, Addr.new],
   by decide,
   (read_data_buffered_and_increment ppuPalW
     (by norm_num [ppuPalW, NesPPU.new_empty_rom, NesPPU.new, Addr.new])).2.1
     (by decide)⟩

/-- C6 counterexample: a `PPUDATA` access at `0x3F20` — which the claim
says behaves exactly like `0x3F00` — indexes past the 32-byte palette
table and panics (`none`) on both read and write, while the same access
at `0x3F00` succeeds. -/
theorem palette_3f20_not_mirrored :
    ppu3f20.addr.read = 0x3f20 ∧
    ppu3f20.read_data = none ∧
    ppu3f20.write_to_data 0x34 = none ∧
    (∃ q, ppuPalW.write_to_data 0x34 = some q) ∧
    ((ppuPalW.read_data).map fun pr => pr.2) = some 0x21 :=
  ⟨rfl, rfl, rfl, ⟨_, rfl⟩, rfl⟩

/-- C6 (amended): `PPUDATA` accesses at `$3F10/$3F14/$3F18/$3F1C` read
and write the palette entry of the corresponding `$3F00/$3F04/$3F08/
$3F0C` address (and those addresses read and write the same entries), so
writes through either alias are observable through the other; addresses
`$3F20–$3FFF` are not mirrored — they index out of bounds and panic. -/
theorem palette_mirror_behaviour (p : NesPPU) (v : Nat) :
    (p.addr.read = 0x3f10 ∨ p.addr.read = 0x3f14 ∨ p.addr.read = 0x3f18 ∨
      p.addr.read = 0x3f1c →
      p.read_data = some (p.increment_vram_addr,
        p.palette_table (p.addr.read - 0x3f10)) ∧
      (∃ p', p.write_to_data v = some p' ∧
        p'.palette_table (p.addr.read - 0x3f10) = v ∧
        (∀ i, i ≠ p.addr.read - 0x3f10 →
          p'.palette_table i = p.palette_table i))) ∧
    (0x3f00 ≤ p.addr.read → p.addr.read ≤ 0x3f1f →
      ¬(p.addr.read = 0x3f10 ∨ p.addr.read = 0x3f14 ∨ p.addr.read = 0x3f18 ∨
        p.addr.read = 0x3f1c) →
      p.read_data = some (p.increment_vram_addr,
        p.palette_table (p.addr.read - 0x3f00)) ∧
      (∃ p', p.write_to_data v = some p' ∧
        p'.palette_table (p.addr.read - 0x3f00) = v ∧
        (∀ i, i ≠ p.addr.read - 0x3f00 →
          p'.palette_table i = p.palette_table i))) ∧
    (0x3f20 ≤ p.addr.read → p.addr.read ≤ 0x3fff →
      p.read_data = none ∧ p.write_to_data v = none) := by
  obtain hfields := p.increment_vram_addr_fields
  refine ⟨?_, ?_, ?_⟩
  · intro haddr
    have hidx : p.addr.read - 0x10 - 0x3f00 = p.addr.read - 0x3f10 := by omega
    constructor
    · simp only [NesPPU.read_data]
      rw [if_neg (by omega), if_neg (by omega), if_neg (by omega),
        if_pos haddr, if_pos (by omega : p.addr.read - 0x10 - 0x3f00 < 32),
        hfields.2.2.2.2.1, hidx]
    · have hw : p.write_to_data v = some
          ({ p with palette_table :=
              fun i => if i = p.addr.read - 0x10 - 0x3f00 then v
                else p.palette_table i }).increment_vram_addr := by
        simp only [NesPPU.write_to_data]
        rw [if_neg (by omega), if_neg (by omega), if_neg (by omega),
          if_pos haddr, if_pos (by omega : p.addr.read - 0x10 - 0x3f00 < 32)]
        rfl
      refine ⟨_, hw, ?_, ?_⟩
      · rw [NesPPU.increment_vram_addr_fields _ |>.2.2.2.2.1]
        simp [hidx]
      · intro i hi
        rw [NesPPU.increment_vram_addr_fields _ |>.2.2.2.2.1]
        simp only []
        rw [if_neg (by omega)]
  · intro h1 h2 hnm
    constructor
    · simp only [NesPPU.read_data]
      rw [if_neg (by omega), if_neg (by omega), if_neg (by omega),
        if_neg hnm, if_pos (by omega : 0x3f00 ≤ p.addr.read ∧ p.addr.read ≤ 0x3fff),
        if_pos (by omega : p.addr.read - 0x3f00 < 32), hfields.2.2.2.2.1]
    · have hw : p.write_to_data v = some
          ({ p with palette_table :=
              fun i => if i = p.addr.read - 0x3f00 then v
                else p.palette_table i }).increment_vram_addr := by
        simp only [NesPPU.write_to_data]
        rw [if_neg (by omega), if_neg (by omega), if_neg (by omega),
          if_neg hnm, if_pos (by omega : 0x3f00 ≤ p.addr.read ∧ p.addr.read ≤ 0x3fff),
          if_pos (by omega : p.addr.read - 0x3f00 < 32)]
        rfl
      refine ⟨_, hw, ?_, ?_⟩
      · rw [NesPPU.increment_vram_addr_fields _ |>.2.2.2.2.1]
        simp
      · intro i hi
        rw [NesPPU.increment_vram_addr_fields _ |>.2.2.2.2.1]
        simp only []
        rw [if_neg hi]
  · intro h1 h2
    constructor
    · simp only [NesPPU.read_data]
      rw [if_neg (by omega), if_neg (by omega), if_neg (by omega),
        if_neg (by omega), if_pos (by omega : 0x3f00 ≤ p.addr.read ∧ p.addr.read ≤ 0x3fff),
        if_neg (by omega : ¬(p.addr.read - 0x3f00 < 32))]
    · simp only [NesPPU.write_to_data]
      rw [if_neg (by omega), if_neg (by omega), if_neg (by omega),
        if_neg (by omega), if_pos (by omega : 0x3f00 ≤ p.addr.read ∧ p.addr.read ≤ 0x3fff),
        if_neg (by omega : ¬(p.addr.read - 0x3f00 < 32))]
      rfl

/-- C6 witness: the mirror address `0x3F10` reads entry 0 of the palette
table and a write through it lands in entry 0, the entry also addressed
by `0x3F00`. -/
theorem palette_mirror_behaviour_witness :
    (ppu3f10.addr.read = 0x3f10 ∨ ppu3f10.addr.read = 0x3f14 ∨
     ppu3f10.addr.read = 0x3f18 ∨ ppu3f10.addr.read = 0x3f1c) ∧
    ppu3f10.read_data = some (ppu3f10.increment_vram_addr,
      ppu3f10.palette_table (ppu3f10.addr.read - 0x3f10)) ∧
    (∃ p', ppu3f10.write_to_data 0x34 = some p' ∧
      p'.palette_table (ppu3f10.addr.read - 0x3f10) = 0x34 ∧
      (∀ i, i ≠ ppu3f10.addr.read - 0x3f10 →
        p'.palette_table i = ppu3f10.palette_table i)) :=
  ⟨Or.inl (by decide),
   ((palette_mirror_behaviour ppu3f10 0x34).1 (Or.inl (by decide))).1,
   ((palette_mirror_behaviour ppu3f10 0x34).1 (Or.inl (by decide))).2⟩
